import Mathlib

/-!
Shallow embedding of the retry interceptor of `interceptor_retry.go`
(package `request`, repository yeldisbayev/request), together with proofs
of the behavioural properties claimed for it.

The embedding models the Go code directly:
  * `maxRetries`, `defaultStatusCodes`, `delay`, `shouldRetry`, `drainBody`
    mirror the homonymous Go declarations;
  * the retry loop of `Retry(...)` is `retryLoop`, written with an explicit
    fuel argument that equals `maxRetries - retries` at every call site
    (the Go loop condition `retries < maxRetries` makes this the exact
    number of iterations still possible, so the fuel never runs out before
    the Go loop would exit);
  * the downstream `tripper.RoundTrip` is an abstract `Transport`:
    a function from the invocation index (0 = first attempt) and the body
    bytes it consumes to an outcome pair `(res, err)`, i.e. an arbitrary
    predetermined sequence of outcomes;
  * `io.ReadCloser` body streams are modelled by their remaining byte
    content; a transport invocation reads the request body to EOF, as
    `net/http` transports do, leaving the stream empty.  The Go statement
    `req.Body = body` makes `req.Body` an alias of the single snapshot
    stream obtained from `req.GetBody()` before the first attempt, which
    the state `St` records with the flag `bodyIsSnap`;
  * `time.Duration` values are modelled in whole seconds (`delay` is only
    ever called with `retries` equal to 1 or 2, where
    `math.Pow(2, float64(retries))` is exact, so `2 ^ retries` seconds is
    the precise value);
  * a run records a trace: the bytes sent on every attempt, the delay slept
    before every re-issued attempt, and what `drainBody` did between
    attempts, so that the claims about backoff, body replay and draining
    are statements about observable behaviour.
-/

namespace Request

/-- Byte strings (contents of an `io.ReadCloser` body stream). -/
abbrev Bytes := List Nat

/-- Abstract Go `error` values. -/
abbrev Err := String

/-- The observable part of an `*http.Response` used by the interceptor:
its status code, whether `res.Body` is non-nil, and whether draining that
body (the `io.Copy`/`Close` in `drainBody`) would fail. -/
structure HttpResponse where
  statusCode : Int
  hasBody : Bool
  drainFails : Bool
deriving DecidableEq

/-- Outcome of one `tripper.RoundTrip(req)` call: the pair `(res, err)`,
each possibly nil. -/
structure RTResult where
  res : Option HttpResponse
  err : Option Err
deriving DecidableEq

/-- The observable part of an `*http.Request` used by the interceptor:
whether `req.Body` is non-nil, the bytes of that stream, and `req.GetBody`
(`none` models a nil function, which Go would call anyway and thereby
cause a nil-function-call runtime error; `some (.error e)` a call failing
with `e`; `some (.ok bs)` a call handing out a fresh stream holding `bs`). -/
structure HttpRequest where
  hasBody : Bool
  bodyBytes : Bytes
  getBody : Option (Except Err Bytes)

/-- The downstream transport: invocation `k` (0-based), consuming the given
request-body bytes (`none` when `req.Body` is nil), produces an outcome.
This represents an arbitrary infinite sequence of transport behaviours. -/
abbrev Transport := Nat → Option Bytes → RTResult

/-- Go: `const maxRetries = 3`. -/
def maxRetries : Nat := 3

/-- Go: `var defaultStatusCodes = []int{...}` — 408 StatusRequestTimeout,
425 StatusTooEarly, 429 StatusTooManyRequests, 502 StatusBadGateway,
503 StatusServiceUnavailable, 504 StatusGatewayTimeout. -/
def defaultStatusCodes : List Int := [408, 425, 429, 502, 503, 504]

/-- Go: `delay` — `time.Duration(math.Pow(2, float64(retries))) * time.Second`,
in seconds (exact for every argument the interceptor uses). -/
def delay (retries : Nat) : Nat := 2 ^ retries

/-- Go: `shouldRetry` — retry on any non-nil error, or on a non-nil response
whose status code the configured slice contains. -/
def shouldRetry (res : Option HttpResponse) (err : Option Err)
    (statusCodes : List Int) : Bool :=
  match err with
  | some _ => true
  | none =>
    match res with
    | some r => statusCodes.contains r.statusCode
    | none => false

/-- Go: `drainBody` — when `res` and `res.Body` are non-nil, copy the body
to `io.Discard` and close it, discarding both error results.  The model
returns what the trace records: whether a body was drained and closed, and
whether the discarded copy/close operation failed. -/
def drainBody (res : Option HttpResponse) : Bool × Bool :=
  match res with
  | some r => if r.hasBody then (true, r.drainFails) else (false, false)
  | none => (false, false)

/-- Mutable request-body state threaded through the retry loop:
`hasBody` is `req.Body != nil` (constant over the loop: the Go code only
reassigns `req.Body`, never sets it to nil), `origRem`/`snapRem` are the
remaining contents of the original stream and of the snapshot stream
`body` obtained from `req.GetBody()`, and `bodyIsSnap` says whether
`req.Body` currently aliases the snapshot stream (after the first
`req.Body = body` it always does). -/
structure St where
  hasBody : Bool
  origRem : Bytes
  snapRem : Bytes
  bodyIsSnap : Bool
deriving DecidableEq

/-- A transport invocation reads `req.Body` to EOF: it receives the
stream's remaining bytes and leaves the stream empty (`none` when
`req.Body` is nil). -/
def readBody (st : St) : Option Bytes × St :=
  if st.hasBody then
    if st.bodyIsSnap then (some st.snapRem, { st with snapRem := [] })
    else (some st.origRem, { st with origRem := [] })
  else (none, st)

/-- Go: `if req.Body != nil { req.Body = body }` — point `req.Body` at the
snapshot stream (an alias, not a fresh copy). -/
def resetBody (st : St) : St :=
  if st.hasBody then { st with bodyIsSnap := true } else st

/-- Trace of one iteration of the retry loop (one re-issued attempt):
the delay passed to `sleepWithContext` (`none` when the sleep was skipped
because `retries == 0`), what `drainBody` did, the body bytes consumed by
the re-issued attempt, and that attempt's outcome. -/
structure Iter where
  sleptDelay : Option Nat
  drainedBody : Bool
  drainFailed : Bool
  sent : Option Bytes
  outcome : RTResult
deriving DecidableEq

/-- Go: the `for shouldRetry(res, err, retryStatusCodes) && retries < maxRetries`
loop of `Retry`.  `fuel` equals `maxRetries - retries` whenever the function
is entered from `retryTrip`, so the structural recursion performs exactly
the iterations the Go loop performs.  Returns the iteration trace and the
final `(res, err)`. -/
def retryLoop (statusCodes : List Int) (tr : Transport) :
    Nat → RTResult → St → Nat → List Iter × RTResult
  | 0, cur, _, _ => ([], cur)
  | fuel + 1, cur, st, retries =>
    if shouldRetry cur.res cur.err statusCodes = true ∧ retries < maxRetries then
      let sleptDelay : Option Nat :=
        if retries ≠ 0 then some (delay retries) else none
      let drained := drainBody cur.res
      let st1 := resetBody st
      let sent := (readBody st1).1
      let out := tr (retries + 1) sent
      let rest := retryLoop statusCodes tr fuel out (readBody st1).2 (retries + 1)
      (⟨sleptDelay, drained.1, drained.2, sent, out⟩ :: rest.1, rest.2)
    else ([], cur)

/-- Trace of a whole `RoundTrip` run that reached the first attempt:
the bytes consumed by the first attempt, its outcome, the retry-loop
iteration trace, and the returned `(res, err)`. -/
structure Run where
  firstSent : Option Bytes
  firstOutcome : RTResult
  iters : List Iter
  result : RTResult
deriving DecidableEq

/-- Result of the interceptor's `RoundTrip`: `nilGetBody` models the
nil-function call `req.GetBody()` performed when `req.Body != nil` but
`req.GetBody == nil` (a runtime error, no attempt made); `bodyError e`
the early `return res, err` after `req.GetBody()` fails (no attempt made);
`completed run` a run that performed at least the first attempt. -/
inductive TripResult where
  | nilGetBody
  | bodyError (e : Err)
  | completed (run : Run)
deriving DecidableEq

/-- Go: the body of the `func(req *http.Request) (res, err)` closure that
`Retry(statusCodes...)` wraps around `tripper`: snapshot the body via
`req.GetBody()` when `req.Body != nil`, perform the first attempt, then
run the retry loop. -/
def retryTrip (statusCodes : List Int) (req : HttpRequest) (tr : Transport) :
    TripResult :=
  if req.hasBody then
    match req.getBody with
    | none => .nilGetBody
    | some (.error e) => .bodyError e
    | some (.ok snap) =>
      let st : St := ⟨true, req.bodyBytes, snap, false⟩
      let sent := (readBody st).1
      let first := tr 0 sent
      let rest := retryLoop statusCodes tr maxRetries first (readBody st).2 0
      .completed ⟨sent, first, rest.1, rest.2⟩
  else
    let st : St := ⟨false, [], [], false⟩
    let sent := (readBody st).1
    let first := tr 0 sent
    let rest := retryLoop statusCodes tr maxRetries first (readBody st).2 0
    .completed ⟨sent, first, rest.1, rest.2⟩

/-- Go: the status-code selection in `Retry(statusCodes ...int)` —
the default slice unless at least one code was given. -/
def retryStatusCodes (statusCodes : List Int) : List Int :=
  if statusCodes.length ≠ 0 then statusCodes else defaultStatusCodes

/-- The full interceptor: `Retry(statusCodes...)(tripper).RoundTrip(req)`. -/
def RetryTrip (statusCodes : List Int) (req : HttpRequest) (tr : Transport) :
    TripResult :=
  retryTrip (retryStatusCodes statusCodes) req tr

/-- Number of downstream transport invocations a `RoundTrip` run performed. -/
def numCalls : TripResult → Nat
  | .nilGetBody => 0
  | .bodyError _ => 0
  | .completed run => 1 + run.iters.length

/-- The body bytes consumed by the downstream transport on each attempt,
in attempt order (`none` on an attempt whose `req.Body` was nil). -/
def sentBodies : TripResult → List (Option Bytes)
  | .nilGetBody => []
  | .bodyError _ => []
  | .completed run => run.firstSent :: run.iters.map Iter.sent

/-- The delays passed to `sleepWithContext` before each re-issued attempt,
in order; `none` marks a retry before which the sleep was skipped. -/
def sleptDelays : TripResult → List (Option Nat)
  | .nilGetBody => []
  | .bodyError _ => []
  | .completed run => run.iters.map Iter.sleptDelay

/-- The outcome of every attempt, in attempt order. -/
def Run.outcomes (run : Run) : List RTResult :=
  run.firstOutcome :: run.iters.map Iter.outcome

/-- The drain entries of an iteration trace match the preceding attempt's
outcome: each re-issued attempt is preceded by a drain-and-close of the
previous attempt's response body exactly when that response has one, and
the trace records the drain's own (discarded) failure. -/
def drainsOk : RTResult → List Iter → Prop
  | _, [] => True
  | prev, it :: rest =>
    (it.drainedBody = (drainBody prev.res).1 ∧
     it.drainFailed = (drainBody prev.res).2) ∧
    drainsOk it.outcome rest

/-- The part of a response the retry logic may depend on: status code and
body presence — everything except whether draining the body would fail. -/
def coreRes (res : Option HttpResponse) : Option (Int × Bool) :=
  res.map fun r => (r.statusCode, r.hasBody)

/-- The drain-failure-independent part of an attempt outcome. -/
def coreOut (o : RTResult) : Option (Int × Bool) × Option Err :=
  (coreRes o.res, o.err)

/-- The drain-failure-independent part of an iteration-trace entry:
its slept delay, whether a body was drained, the bytes sent, and the
outcome's core (everything but the drain's own discarded failure bit). -/
def coreIter (it : Iter) :
    Option Nat × Bool × Option Bytes × (Option (Int × Bool) × Option Err) :=
  (it.sleptDelay, it.drainedBody, it.sent, coreOut it.outcome)

/-- A transport that always answers with the given status code
(body-less response, no error), whatever the attempt and request body. -/
def alwaysStatus (code : Int) : Transport :=
  fun _ _ => ⟨some ⟨code, false, false⟩, none⟩

/-- A transport that always fails with a transport error. -/
def alwaysErr : Transport := fun _ _ => ⟨none, some "connection refused"⟩

/-- A request without a body (`req.Body == nil`). -/
def noBodyReq : HttpRequest := ⟨false, [], none⟩

/-- A well-formed request with body bytes `[1, 2, 3]` whose `GetBody`
hands out a fresh copy of those bytes. -/
def bodyReq123 : HttpRequest := ⟨true, [1, 2, 3], some (.ok [1, 2, 3])⟩

/-- A request with a body whose `GetBody` call fails. -/
def badGetBodyReq : HttpRequest := ⟨true, [1], some (.error "snapshot failed")⟩

/-- A request whose `Body` is non-nil but whose `GetBody` is a nil
function. -/
def nilGetBodyReq : HttpRequest := ⟨true, [1], none⟩

/-- A transport that always answers 503 with a response body whose drain
fails. -/
def status503BodyDrainFail : Transport := fun _ _ => ⟨some ⟨503, true, true⟩, none⟩

/-- A transport that always answers 503 with a response body whose drain
succeeds. -/
def status503Body : Transport := fun _ _ => ⟨some ⟨503, true, false⟩, none⟩

/-- The outcome the `alwaysStatus 503` transport produces. -/
def out503 : RTResult := ⟨some ⟨503, false, false⟩, none⟩

/-- The run `retryTrip defaultStatusCodes noBodyReq (alwaysStatus 503)`
produces. -/
def run503 : Run :=
  ⟨none, out503,
   [⟨none, false, false, none, out503⟩,
    ⟨some 2, false, false, none, out503⟩,
    ⟨some 4, false, false, none, out503⟩], out503⟩

/-- The outcome the `alwaysErr` transport produces. -/
def outErr : RTResult := ⟨none, some "connection refused"⟩

/-- The run `retryTrip defaultStatusCodes noBodyReq alwaysErr` produces. -/
def runErr : Run :=
  ⟨none, outErr,
   [⟨none, false, false, none, outErr⟩,
    ⟨some 2, false, false, none, outErr⟩,
    ⟨some 4, false, false, none, outErr⟩], outErr⟩

/-- The outcome the `alwaysStatus 500` transport produces. -/
def out500 : RTResult := ⟨some ⟨500, false, false⟩, none⟩

/-- The run `RetryTrip [418] noBodyReq (alwaysStatus 500)` produces. -/
def run500 : Run := ⟨none, out500, [], out500⟩

/-- The outcome the `status503BodyDrainFail` transport produces. -/
def out503F : RTResult := ⟨some ⟨503, true, true⟩, none⟩

/-- The run `retryTrip defaultStatusCodes noBodyReq status503BodyDrainFail`
produces. -/
def run503F : Run :=
  ⟨none, out503F,
   [⟨none, true, true, none, out503F⟩,
    ⟨some 2, true, true, none, out503F⟩,
    ⟨some 4, true, true, none, out503F⟩], out503F⟩

/-- The outcome the `status503Body` transport produces. -/
def out503B : RTResult := ⟨some ⟨503, true, false⟩, none⟩

/-- The run `retryTrip defaultStatusCodes noBodyReq status503Body`
produces. -/
def run503B : Run :=
  ⟨none, out503B,
   [⟨none, true, false, none, out503B⟩,
    ⟨some 2, true, false, none, out503B⟩,
    ⟨some 4, true, false, none, out503B⟩], out503B⟩

/-- The initial body state of a run that reaches the first attempt: the
original request stream, the snapshot stream handed out by `GetBody`, and
`req.Body` still pointing at the original stream. -/
def initSt (req : HttpRequest) : St :=
  if req.hasBody then
    ⟨true, req.bodyBytes,
      (match req.getBody with
        | some (.ok snap) => snap
        | _ => []), false⟩
  else ⟨false, [], [], false⟩

/-- The retry loop never performs more iterations than it has fuel. -/
theorem retryLoop_length_le (statusCodes : List Int) (tr : Transport) :
    ∀ fuel cur st retries,
      (retryLoop statusCodes tr fuel cur st retries).1.length ≤ fuel := by
  intro fuel
  induction fuel with
  | zero => intro cur st retries; simp [retryLoop]
  | succ n ih =>
    intro cur st retries
    simp only [retryLoop]
    split
    · simpa using ih _ _ (retries + 1)
    · simp

/-- The retry loop returns either no iterations and its incoming outcome,
or the outcome of its last iteration. -/
theorem retryLoop_result_last (statusCodes : List Int) (tr : Transport) :
    ∀ fuel cur st retries,
      ((retryLoop statusCodes tr fuel cur st retries).1 = [] ∧
        (retryLoop statusCodes tr fuel cur st retries).2 = cur) ∨
      ((retryLoop statusCodes tr fuel cur st retries).1.map Iter.outcome).getLast? =
        some (retryLoop statusCodes tr fuel cur st retries).2 := by
  intro fuel
  induction fuel with
  | zero => intro cur st retries; left; simp [retryLoop]
  | succ n ih =>
    intro cur st retries
    simp only [retryLoop]
    split
    · right
      rcases ih (tr (retries + 1) (readBody (resetBody st)).1)
          (readBody (resetBody st)).2 (retries + 1) with ⟨h1, h2⟩ | h
      · simp [h1, h2]
      · rcases hl : (retryLoop statusCodes tr n
            (tr (retries + 1) (readBody (resetBody st)).1)
            (readBody (resetBody st)).2 (retries + 1)).1 with _ | ⟨a, l⟩
        · simp [hl] at h
        · simpa [hl] using h
    · left; simp

/-- Shape of every run the interceptor completes: for some initial body
state, the run is the first attempt's trace followed by the retry loop
entered with `retries = 0` and fuel `maxRetries`. -/
theorem retryTrip_completed (statusCodes : List Int) (req : HttpRequest)
    (tr : Transport) (run : Run)
    (h : retryTrip statusCodes req tr = .completed run) :
    run = ⟨(readBody (initSt req)).1, tr 0 (readBody (initSt req)).1,
      (retryLoop statusCodes tr maxRetries (tr 0 (readBody (initSt req)).1)
        (readBody (initSt req)).2 0).1,
      (retryLoop statusCodes tr maxRetries (tr 0 (readBody (initSt req)).1)
        (readBody (initSt req)).2 0).2⟩ := by
  unfold retryTrip at h
  split at h
  · next hb =>
    split at h
    · cases h
    · cases h
    · next snap hgb =>
      injection h with h1
      rw [← h1]
      simp [initSt, hb, hgb]
  · next hb =>
    injection h with h1
    rw [← h1]
    have hb' : req.hasBody = false := by
      cases hx : req.hasBody
      · rfl
      · exact absurd (by simp [hx]) hb
    simp [initSt, hb']

/-- With fuel `maxRetries`, counter 0 and every outcome retryable, the
loop runs its three iterations, skipping the sleep before the first one
and sleeping `2` and `4` seconds before the other two. -/
theorem retryLoop_all_retryable (statusCodes : List Int) (tr : Transport)
    (hall : ∀ k b, shouldRetry (tr k b).res (tr k b).err statusCodes = true)
    (cur : RTResult) (st : St)
    (hcur : shouldRetry cur.res cur.err statusCodes = true) :
    (retryLoop statusCodes tr maxRetries cur st 0).1.map Iter.sleptDelay =
      [none, some 2, some 4] ∧
    (retryLoop statusCodes tr maxRetries cur st 0).1.length = 3 := by
  simp [retryLoop, maxRetries, delay, hall, hcur]

/-- A non-retryable outcome exits the loop at once. -/
theorem retryLoop_not_retryable (statusCodes : List Int) (tr : Transport)
    (fuel : Nat) (cur : RTResult) (st : St) (retries : Nat)
    (hcur : shouldRetry cur.res cur.err statusCodes = false) :
    retryLoop statusCodes tr fuel cur st retries = ([], cur) := by
  cases fuel <;> simp [retryLoop, hcur]

/-- The returned outcome of every completed run is the outcome of its
last attempt. -/
theorem run_outcomes_getLast (statusCodes : List Int) (req : HttpRequest)
    (tr : Transport) (run : Run)
    (h : retryTrip statusCodes req tr = .completed run) :
    run.outcomes.getLast? = some run.result := by
  obtain rfl := retryTrip_completed _ _ _ _ h
  rcases retryLoop_result_last statusCodes tr maxRetries
      (tr 0 (readBody (initSt req)).1) (readBody (initSt req)).2 0 with ⟨h1, h2⟩ | hl
  · simp [Run.outcomes, h1, h2]
  · simp only [Run.outcomes]
    rcases hi : (retryLoop statusCodes tr maxRetries (tr 0 (readBody (initSt req)).1)
        (readBody (initSt req)).2 0).1 with _ | ⟨a, l⟩
    · rw [hi] at hl; simp at hl
    · rw [hi] at hl
      simp only [List.map_cons] at hl ⊢
      rw [List.getLast?_cons_cons]
      exact hl

/-- C1 (counterexample): for the always-503 transport, the delays the
interceptor sleeps before retry attempts 1, 2, 3 are 0 (the sleep is
skipped), 2 and 4 seconds — not the claimed 1, 2 and 4: the code guards
the sleep with `retries != 0` and then sleeps `delay(retries)` with the
counter already incremented past the first retry. -/
theorem backoff_delays_not_one_two_four :
    sleptDelays (RetryTrip [] noBodyReq (alwaysStatus 503)) =
      [none, some 2, some 4] ∧
    sleptDelays (RetryTrip [] noBodyReq (alwaysStatus 503)) ≠
      [some 1, some 2, some 4] := by
  constructor <;> decide

/-- C1 (amended): for a transport whose every attempt yields a retryable
outcome, the interceptor sleeps no delay at all before retry attempt 1 and
sleeps 2 and 4 seconds before retry attempts 2 and 3; no delay precedes
the very first (non-retry) attempt. -/
theorem backoff_delays_skip_first_retry (statusCodes : List Int)
    (req : HttpRequest) (tr : Transport)
    (hall : ∀ k b, shouldRetry (tr k b).res (tr k b).err statusCodes = true)
    (run : Run) (hrun : retryTrip statusCodes req tr = .completed run) :
    sleptDelays (retryTrip statusCodes req tr) = [none, some 2, some 4] := by
  obtain rfl := retryTrip_completed _ _ _ _ hrun
  rw [hrun]
  simp only [sleptDelays]
  exact (retryLoop_all_retryable statusCodes tr hall _ _ (hall 0 _)).1

/-- C1 (witness): the amended statement at the always-503 transport. -/
theorem backoff_delays_skip_first_retry_witness :
    sleptDelays (retryTrip defaultStatusCodes noBodyReq (alwaysStatus 503)) =
      [none, some 2, some 4] :=
  backoff_delays_skip_first_retry defaultStatusCodes noBodyReq
    (alwaysStatus 503) (fun _ _ => rfl) run503 (by decide)

/-- C2: the request body is not replayed byte-identically on every
attempt: with body `[1, 2, 3]` and an always-503 transport, attempts 1
and 2 transmit `[1, 2, 3]` but attempts 3 and 4 transmit nothing, because
the single snapshot stream obtained from `GetBody` before the first
attempt is consumed by attempt 2 and reassigned — not re-acquired — for
the later retries. -/
theorem body_replay_consumed_snapshot :
    sentBodies (RetryTrip [] bodyReq123 (alwaysStatus 503)) =
      [some [1, 2, 3], some [1, 2, 3], some [], some []] ∧
    ¬ ∀ b ∈ sentBodies (RetryTrip [] bodyReq123 (alwaysStatus 503)),
        b = some [1, 2, 3] := by
  constructor <;> decide

/-- C3: for a transport whose every invocation yields a retryable outcome,
the interceptor invokes the downstream exactly 4 times (1 first attempt +
3 retries) and returns the outcome of the last attempt. -/
theorem always_retryable_four_attempts (statusCodes : List Int)
    (req : HttpRequest) (tr : Transport)
    (hall : ∀ k b, shouldRetry (tr k b).res (tr k b).err statusCodes = true)
    (run : Run) (hrun : retryTrip statusCodes req tr = .completed run) :
    numCalls (retryTrip statusCodes req tr) = 4 ∧
    run.outcomes.getLast? = some run.result := by
  refine ⟨?_, run_outcomes_getLast _ _ _ _ hrun⟩
  obtain rfl := retryTrip_completed _ _ _ _ hrun
  rw [hrun]
  simp only [numCalls]
  rw [(retryLoop_all_retryable statusCodes tr hall _ _ (hall 0 _)).2]

/-- C3 (witness): the always-failing transport is invoked 4 times and the
last error is returned. -/
theorem always_retryable_four_attempts_witness :
    numCalls (retryTrip defaultStatusCodes noBodyReq alwaysErr) = 4 ∧
    runErr.outcomes.getLast? = some runErr.result :=
  always_retryable_four_attempts defaultStatusCodes noBodyReq alwaysErr
    (fun _ _ => rfl) runErr (by decide)

/-- C4: the retry decision holds if and only if the attempt produced a
transport error or a response whose status code belongs to the configured
set — and within the loop a further attempt is issued exactly when that
decision holds and the counter is below the ceiling, so a response with a
status outside the set is never retried. -/
theorem retry_decision_characterization :
    (∀ (res : Option HttpResponse) (err : Option Err) (statusCodes : List Int),
        shouldRetry res err statusCodes = true ↔
          err ≠ none ∨ ∃ r, res = some r ∧ r.statusCode ∈ statusCodes) ∧
    (∀ (statusCodes : List Int) (tr : Transport) (fuel : Nat)
        (cur : RTResult) (st : St) (retries : Nat),
        (retryLoop statusCodes tr (fuel + 1) cur st retries).1 ≠ [] ↔
          (shouldRetry cur.res cur.err statusCodes = true ∧
            retries < maxRetries)) := by
  constructor
  · intro res err statusCodes
    cases err <;> cases res <;> simp [shouldRetry, List.elem_iff]
  · intro statusCodes tr fuel cur st retries
    simp only [retryLoop]
    split
    · next h => simp [h.1, h.2]
    · next h => simp only [ne_eq, not_true_eq_false, false_iff]; exact h

/-- C5: when the first invocation yields, without error, a response whose
status code is outside the configured set (the default set when `Retry`
was given no codes, the given codes otherwise), the interceptor performs
exactly one downstream invocation and returns that first response. -/
theorem non_retryable_first_single_attempt (statusCodes : List Int)
    (req : HttpRequest) (tr : Transport)
    (h0 : ∀ b, (tr 0 b).err = none ∧
        ∃ r, (tr 0 b).res = some r ∧
          r.statusCode ∉ retryStatusCodes statusCodes)
    (run : Run) (hrun : RetryTrip statusCodes req tr = .completed run) :
    numCalls (RetryTrip statusCodes req tr) = 1 ∧
    run.result = run.firstOutcome := by
  have hsr : ∀ b, shouldRetry (tr 0 b).res (tr 0 b).err
      (retryStatusCodes statusCodes) = false := by
    intro b
    obtain ⟨he, r, hr, hmem⟩ := h0 b
    simpa [shouldRetry, he, hr] using hmem
  unfold RetryTrip at hrun ⊢
  obtain rfl := retryTrip_completed _ _ _ _ hrun
  rw [hrun]
  have hloop := retryLoop_not_retryable (retryStatusCodes statusCodes) tr
    maxRetries (tr 0 (readBody (initSt req)).1) (readBody (initSt req)).2 0 (hsr _)
  simp [numCalls, hloop]

/-- C5 (witness): a 500 response under the custom retry set 418 is
returned at once after a single invocation. -/
theorem non_retryable_first_single_attempt_witness :
    numCalls (RetryTrip [418] noBodyReq (alwaysStatus 500)) = 1 ∧
    run500.result = run500.firstOutcome :=
  non_retryable_first_single_attempt [418] noBodyReq (alwaysStatus 500)
    (fun _ => ⟨rfl, ⟨500, false, false⟩, rfl, by decide⟩) run500 (by decide)

/-- C6: when the request has a body and its `GetBody` snapshot fails, the
interceptor returns that failure with zero downstream invocations. -/
theorem getBody_failure_aborts (statusCodes : List Int) (req : HttpRequest)
    (tr : Transport) (e : Err) (hb : req.hasBody = true)
    (hg : req.getBody = some (.error e)) :
    retryTrip statusCodes req tr = .bodyError e ∧
    numCalls (retryTrip statusCodes req tr) = 0 := by
  simp [retryTrip, hb, hg, numCalls]

/-- C6 (witness): the concrete failing-snapshot request. -/
theorem getBody_failure_aborts_witness :
    retryTrip [] badGetBodyReq (alwaysStatus 503) =
      .bodyError "snapshot failed" ∧
    numCalls (retryTrip [] badGetBodyReq (alwaysStatus 503)) = 0 :=
  getBody_failure_aborts [] badGetBodyReq (alwaysStatus 503)
    "snapshot failed" rfl rfl

/-- C7 (counterexample): a request whose body snapshot fails performs zero
downstream invocations, refuting the claim's unconditional lower bound of
one invocation per request. -/
theorem attempts_lower_bound_counterexample :
    numCalls (retryTrip defaultStatusCodes badGetBodyReq (alwaysStatus 503))
      = 0 ∧
    ¬ 1 ≤ numCalls
        (retryTrip defaultStatusCodes badGetBodyReq (alwaysStatus 503)) := by
  constructor <;> decide

/-- C7 (amended): the interceptor's round trip is a total function that
never performs more than 4 downstream invocations, and every run that
reaches the attempt phase (every request whose body-snapshot step does not
abort) performs at least one and at most 1 + 3 invocations, with at most
`maxRetries` retries. -/
theorem attempts_bounded :
    (∀ (statusCodes : List Int) (req : HttpRequest) (tr : Transport),
        numCalls (retryTrip statusCodes req tr) ≤ 4) ∧
    (∀ (statusCodes : List Int) (req : HttpRequest) (tr : Transport)
        (run : Run), retryTrip statusCodes req tr = .completed run →
          1 ≤ numCalls (retryTrip statusCodes req tr) ∧
          run.iters.length ≤ maxRetries) := by
  have key : ∀ (statusCodes : List Int) (req : HttpRequest) (tr : Transport)
      (run : Run), retryTrip statusCodes req tr = .completed run →
        run.iters.length ≤ maxRetries := by
    intro statusCodes req tr run hrun
    obtain rfl := retryTrip_completed _ _ _ _ hrun
    exact retryLoop_length_le statusCodes tr maxRetries _ _ 0
  constructor
  · intro statusCodes req tr
    cases h : retryTrip statusCodes req tr with
    | nilGetBody => simp [numCalls]
    | bodyError e => simp [numCalls]
    | completed run =>
      have hk := key _ _ _ _ h
      simp only [numCalls, maxRetries] at hk ⊢
      omega
  · intro statusCodes req tr run h
    refine ⟨?_, key _ _ _ _ h⟩
    rw [h]
    simp [numCalls]

/-- C7 (witness): the amended bounds at the always-503 transport. -/
theorem attempts_bounded_witness :
    numCalls (retryTrip defaultStatusCodes noBodyReq (alwaysStatus 503)) ≤ 4 ∧
    1 ≤ numCalls (retryTrip defaultStatusCodes noBodyReq (alwaysStatus 503)) ∧
    run503.iters.length ≤ maxRetries :=
  ⟨attempts_bounded.1 defaultStatusCodes noBodyReq (alwaysStatus 503),
   attempts_bounded.2 defaultStatusCodes noBodyReq (alwaysStatus 503)
     run503 (by decide)⟩

/-- Every iteration of the retry loop drains exactly the outcome of the
attempt that precedes it. -/
theorem retryLoop_drainsOk (statusCodes : List Int) (tr : Transport) :
    ∀ fuel cur st retries,
      drainsOk cur (retryLoop statusCodes tr fuel cur st retries).1 := by
  intro fuel
  induction fuel with
  | zero => intro cur st retries; simp [retryLoop, drainsOk]
  | succ n ih =>
    intro cur st retries
    simp only [retryLoop]
    split
    · exact ⟨⟨rfl, rfl⟩, ih _ _ _⟩
    · simp [drainsOk]

/-- The retry decision only inspects the drain-failure-independent part
of an outcome. -/
theorem shouldRetry_coreOut {o o' : RTResult} (h : coreOut o = coreOut o')
    (statusCodes : List Int) :
    shouldRetry o.res o.err statusCodes =
      shouldRetry o'.res o'.err statusCodes := by
  obtain ⟨res, err⟩ := o
  obtain ⟨res', err'⟩ := o'
  simp only [coreOut, coreRes, Prod.mk.injEq] at h
  obtain ⟨h1, h2⟩ := h
  subst h2
  cases err <;> cases res <;> cases res' <;> simp_all [shouldRetry]

/-- Whether `drainBody` drains a body only depends on the response's
drain-failure-independent part. -/
theorem drainBody_fst_coreRes {res res' : Option HttpResponse}
    (h : coreRes res = coreRes res') :
    (drainBody res).1 = (drainBody res').1 := by
  cases res with
  | none =>
    cases res' with
    | none => rfl
    | some r' => simp [coreRes] at h
  | some r =>
    cases res' with
    | none => simp [coreRes] at h
    | some r' =>
      obtain ⟨s, hb, df⟩ := r
      obtain ⟨s', hb', df'⟩ := r'
      simp only [coreRes, Option.map_some', Option.some.injEq,
        Prod.mk.injEq] at h
      obtain ⟨h1, h2⟩ := h
      subst h2
      cases hb <;> rfl

/-- The loop's observable behaviour apart from the recorded drain
failures — iteration count, sleeps, whether each drain drained a body,
the bytes sent and the core of every outcome — is the same for two
transports whose outcomes agree up to drain failure. -/
theorem retryLoop_core (statusCodes : List Int) (tr tr' : Transport)
    (htr : ∀ k b, coreOut (tr k b) = coreOut (tr' k b)) :
    ∀ fuel cur cur' st retries, coreOut cur = coreOut cur' →
      (retryLoop statusCodes tr fuel cur st retries).1.map coreIter =
        (retryLoop statusCodes tr' fuel cur' st retries).1.map coreIter ∧
      coreOut (retryLoop statusCodes tr fuel cur st retries).2 =
        coreOut (retryLoop statusCodes tr' fuel cur' st retries).2 := by
  intro fuel
  induction fuel with
  | zero => intro cur cur' st retries h; simpa [retryLoop] using h
  | succ n ih =>
    intro cur cur' st retries h
    have hsr := shouldRetry_coreOut h statusCodes
    have hdr : (drainBody cur.res).1 = (drainBody cur'.res).1 :=
      drainBody_fst_coreRes (congrArg Prod.fst h)
    have hout := htr (retries + 1) (readBody (resetBody st)).1
    by_cases hcond :
        shouldRetry cur.res cur.err statusCodes = true ∧ retries < maxRetries
    · have hcond' :
          shouldRetry cur'.res cur'.err statusCodes = true ∧
            retries < maxRetries := ⟨hsr.symm.trans hcond.1, hcond.2⟩
      obtain ⟨ih1, ih2⟩ := ih (tr (retries + 1) (readBody (resetBody st)).1)
        (tr' (retries + 1) (readBody (resetBody st)).1)
        (readBody (resetBody st)).2 (retries + 1) hout
      simp only [retryLoop, if_pos hcond, if_pos hcond']
      refine ⟨?_, ih2⟩
      simp only [List.map_cons]
      rw [ih1]
      congr 1
      simp only [coreIter, coreOut, Prod.mk.injEq] at hout ⊢
      simp [hdr, hout.1, hout.2]
    · have hcond' :
          ¬(shouldRetry cur'.res cur'.err statusCodes = true ∧
            retries < maxRetries) := by
        intro hc
        exact hcond ⟨hsr.trans hc.1, hc.2⟩
      simp only [retryLoop, if_neg hcond, if_neg hcond']
      exact ⟨by trivial, h⟩

/-- C8: before every re-issued attempt the previous attempt's response
body, when present, is drained and closed (`drainsOk` relates each loop
iteration to the outcome of the attempt before it), and the failure of
that drain-and-close is discarded, never propagated: two transports whose
outcomes differ only in whether draining their response bodies fails
produce runs with identical bytes sent, sleeps, drained-body flags,
status codes and errors. -/
theorem drain_before_each_reissue :
    (∀ (statusCodes : List Int) (req : HttpRequest) (tr : Transport)
        (run : Run), retryTrip statusCodes req tr = .completed run →
          drainsOk run.firstOutcome run.iters) ∧
    (∀ (statusCodes : List Int) (req : HttpRequest) (tr tr' : Transport),
        (∀ k b, coreOut (tr k b) = coreOut (tr' k b)) →
        ∀ run run', retryTrip statusCodes req tr = .completed run →
          retryTrip statusCodes req tr' = .completed run' →
          run.firstSent = run'.firstSent ∧
          coreOut run.firstOutcome = coreOut run'.firstOutcome ∧
          run.iters.map coreIter = run'.iters.map coreIter ∧
          coreOut run.result = coreOut run'.result) := by
  constructor
  · intro statusCodes req tr run hrun
    obtain rfl := retryTrip_completed _ _ _ _ hrun
    exact retryLoop_drainsOk statusCodes tr maxRetries _ _ 0
  · intro statusCodes req tr tr' htr run run' hrun hrun'
    obtain rfl := retryTrip_completed _ _ _ _ hrun
    obtain rfl := retryTrip_completed _ _ _ _ hrun'
    obtain ⟨hc1, hc2⟩ := retryLoop_core statusCodes tr tr' htr maxRetries
      (tr 0 (readBody (initSt req)).1) (tr' 0 (readBody (initSt req)).1)
      (readBody (initSt req)).2 0 (htr 0 _)
    exact ⟨rfl, htr 0 _, hc1, hc2⟩

/-- C8 (witness): the drain trace and drain-failure independence at the
always-503-with-body transports, one of which fails every drain. -/
theorem drain_before_each_reissue_witness :
    drainsOk run503F.firstOutcome run503F.iters ∧
    (run503F.firstSent = run503B.firstSent ∧
      coreOut run503F.firstOutcome = coreOut run503B.firstOutcome ∧
      run503F.iters.map coreIter = run503B.iters.map coreIter ∧
      coreOut run503F.result = coreOut run503B.result) :=
  ⟨drain_before_each_reissue.1 defaultStatusCodes noBodyReq
      status503BodyDrainFail run503F (by decide),
   drain_before_each_reissue.2 defaultStatusCodes noBodyReq
      status503BodyDrainFail status503Body (fun _ _ => rfl)
      run503F run503B (by decide) (by decide)⟩

/-- C10: the interceptor crashes with a nil-function call — performing no
downstream invocation — exactly when the request's `Body` is non-nil while
its `GetBody` is nil, so the round trip is total only under the body
factory precondition. -/
theorem nilGetBody_crash_iff (statusCodes : List Int) (req : HttpRequest)
    (tr : Transport) :
    (retryTrip statusCodes req tr = .nilGetBody ↔
      req.hasBody = true ∧ req.getBody = none) ∧
    (retryTrip statusCodes req tr = .nilGetBody →
      numCalls (retryTrip statusCodes req tr) = 0) := by
  obtain ⟨hb, bytes, gb⟩ := req
  cases hb
  · simp [retryTrip, numCalls]
  · rcases gb with _ | x
    · simp [retryTrip, numCalls]
    · rcases x with e | bs <;> simp [retryTrip, numCalls]

/-- C10 (witness): the concrete request with a body but a nil `GetBody`. -/
theorem nilGetBody_crash_iff_witness :
    retryTrip [] nilGetBodyReq (alwaysStatus 503) = .nilGetBody ∧
    numCalls (retryTrip [] nilGetBodyReq (alwaysStatus 503)) = 0 := by
  have h := nilGetBody_crash_iff [] nilGetBodyReq (alwaysStatus 503)
  have h1 : retryTrip [] nilGetBodyReq (alwaysStatus 503) = .nilGetBody :=
    h.1.mpr ⟨rfl, rfl⟩
  exact ⟨h1, h.2 h1⟩

end Request
